import Mathlib

/-!
Verification model of `python/paddle/vision/datasets/folder.py`.

The Python module provides:
* `has_valid_extension filename extensions` — a pure suffix test on the
  lowercased filename;
* `make_dataset dir class_to_idx extensions is_valid_file` — the shared
  directory-walk-and-collect helper;
* `DatasetFolder` — the labeled folder scanner (class discovery via
  `_find_classes`, eager scan in `__init__`, lazy `__getitem__`);
* `ImageFolder` — the flat folder scanner.

Modelling conventions:
* Python strings are lists of Unicode code points (`List Char`); Python's
  string comparison is code-point lexicographic, modelled by `strLe`.
* The filesystem snapshot is an explicit tree (`FSTree` / `FSForest`);
  directory-listing order (`os.scandir`, `os.walk`) is the order of the
  forest, which is arbitrary, exactly as the OS order is.
* Python's `sorted` builtin is modelled by `List.insertionSort` with the
  corresponding order; on the inputs that occur here (strings, and walk
  triples with pairwise-distinct root paths) every correct sort agrees.
* `os.path.expanduser` expands a leading `~` using the environment's home
  directory; the model takes paths as already expanded, so it is the
  identity.
* Fallible operations return `Except`/`Option`: `RuntimeError` and the
  `TypeError` from calling a `None` predicate become `PyErr`; list
  indexing out of range in `__getitem__` becomes `GetErr.indexError`; a
  failing loader becomes `GetErr.loadError`.
-/

/-- A Python string: the sequence of its code points. -/
abbrev PyStr := List Char

/-- Python string comparison `a <= b`: lexicographic by code point. -/
def strLe (a b : PyStr) : Bool :=
  match a, b with
  | [], _ => true
  | _ :: _, [] => false
  | c :: cs, d :: ds =>
    if c.toNat < d.toNat then true
    else if d.toNat < c.toNat then false
    else strLe cs ds

/-- The propositional form of `strLe`, used as the sort order on strings. -/
abbrev strle (a b : PyStr) : Prop := strLe a b = true

/-- Python's `sorted` on a list of strings (stable; on a total order any
correct sort produces the same list). -/
def pySorted (l : List PyStr) : List PyStr := List.insertionSort strle l

/-- `str.lower()`, code point by code point. -/
def pyLower (s : PyStr) : PyStr := s.map Char.toLower

/-- `has_valid_extension(filename, extensions)`:
`filename.lower().endswith(extensions)`, where `str.endswith` applied to a
tuple is true iff the string ends with one of its members. -/
def has_valid_extension (filename : PyStr) (extensions : List PyStr) : Bool :=
  extensions.any fun ext => ext.isSuffixOf (pyLower filename)

mutual
/-- A node of the filesystem snapshot: a plain file or a directory. -/
inductive FSTree where
  | file (name : PyStr)
  | dir (name : PyStr) (children : FSForest)
/-- The entries of one directory, in OS listing order. -/
inductive FSForest where
  | nil
  | cons (e : FSTree) (es : FSForest)
end

/-- Build a forest from a list of entries. -/
def FSForest.ofList : List FSTree → FSForest
  | [] => .nil
  | e :: es => .cons e (FSForest.ofList es)

/-- The entries of a forest as a list, in listing order. -/
def FSForest.toList : FSForest → List FSTree
  | .nil => []
  | .cons e es => e :: FSForest.toList es

/-- Names of the directory entries of a forest, in listing order. -/
def dirNames (es : FSForest) : List PyStr :=
  es.toList.filterMap fun e =>
    match e with
    | .dir n _ => some n
    | .file _ => none

/-- Names of the plain-file entries of a forest, in listing order. -/
def fileNames (es : FSForest) : List PyStr :=
  es.toList.filterMap fun e =>
    match e with
    | .file n => some n
    | .dir _ _ => none

/-- `os.path.join(a, b)` for a nonempty, separator-free `a` and a relative
`b`, the only shape that occurs in this module. -/
def pathJoin (a b : PyStr) : PyStr := a ++ '/' :: b

/-- `os.path.expanduser`: home-directory expansion of a leading `~` is an
environment effect outside the model; paths here are already expanded. -/
def expanduser (p : PyStr) : PyStr := p

/-- One `os.walk` triple: (root path, subdirectory names, file names). -/
abbrev WalkTriple := PyStr × List PyStr × List PyStr

mutual
/-- The `os.walk` triples contributed by one entry of a directory whose
path is `parent` (top-down; `followlinks` only matters for symlinks, which
the snapshot does not contain). -/
def walkTree (parent : PyStr) : FSTree → List WalkTriple
  | .file _ => []
  | .dir n cs =>
    (pathJoin parent n, dirNames cs, fileNames cs) :: walkForest (pathJoin parent n) cs
/-- The `os.walk` triples contributed by the subtrees of all entries of a
directory whose path is `parent`. -/
def walkForest (parent : PyStr) : FSForest → List WalkTriple
  | .nil => []
  | .cons e es => walkTree parent e ++ walkForest parent es
end

/-- `os.walk(top)`: the triple of `top` itself, then those of its subtree. -/
def osWalk (top : PyStr) (entries : FSForest) : List WalkTriple :=
  (top, dirNames entries, fileNames entries) :: walkForest top entries

/-- The order used by `sorted(os.walk(...))`: Python compares the triples
componentwise, and the root paths of a walk are pairwise distinct, so the
comparison is decided by the root path. -/
abbrev byRoot (t1 t2 : WalkTriple) : Prop := strle t1.1 t2.1

/-- `sorted(os.walk(top, followlinks=True))`. -/
def sortedWalk (top : PyStr) (entries : FSForest) : List WalkTriple :=
  List.insertionSort byRoot (osWalk top entries)

/-- The full paths considered by the shared collection loop:
`for root, _, fnames in sorted(os.walk(d)): for fname in sorted(fnames):
os.path.join(root, fname)`. -/
def sortedWalkFiles (top : PyStr) (entries : FSForest) : List PyStr :=
  (sortedWalk top entries).flatMap fun t =>
    (pySorted t.2.2).map (pathJoin t.1)

/-- Look up the directory entry `target` of a directory: models
`os.path.isdir(os.path.join(d, target))` followed by walking it (a plain
file of that name makes `isdir` false, so the class is skipped). -/
def childDir : FSForest → PyStr → Option FSForest
  | .nil, _ => none
  | .cons (.dir n cs) es, target =>
    if n = target then some cs else childDir es target
  | .cons (.file _) es, target => childDir es target

/-- `sorted(class_to_idx.keys())` for the dict modelled as an association
list in insertion order. -/
def sortedKeys (m : List (PyStr × Nat)) : List PyStr :=
  pySorted (m.map (·.1))

/-- `class_to_idx[target]` for a key that is present (the only way the
module calls it; the default is never reached there). -/
def lookupIdx (m : List (PyStr × Nat)) (k : PyStr) : Nat :=
  (m.lookup k).getD 0

/-- The predicate resolution at the top of `make_dataset` (and repeated in
`ImageFolder.__init__`): `if extensions is not None: def is_valid_file(x):
return has_valid_extension(x, extensions)` — a non-`None` extension set
silently shadows the caller's predicate. -/
def resolveValid (extensions : Option (List PyStr))
    (is_valid_file : Option (PyStr → Bool)) : Option (PyStr → Bool) :=
  match extensions with
  | some exts => some fun x => has_valid_extension x exts
  | none => is_valid_file

/-- The files of one class subdirectory in collection order:
`os.path.join(dir, target)` walked if it is a directory, else skipped. -/
def classFiles (d : PyStr) (entries : FSForest) (target : PyStr) : List PyStr :=
  match childDir entries target with
  | none => []
  | some sub => sortedWalkFiles (pathJoin d target) sub

/-- `make_dataset(dir, class_to_idx, extensions, is_valid_file)`.
`none` is the `TypeError` of calling a predicate that is still `None`
(both arguments `None`): the loop reaches that call exactly when some
candidate file exists. -/
def make_dataset (dir : PyStr) (entries : FSForest)
    (class_to_idx : List (PyStr × Nat)) (extensions : Option (List PyStr))
    (is_valid_file : Option (PyStr → Bool)) : Option (List (PyStr × Nat)) :=
  let d := expanduser dir
  match resolveValid extensions is_valid_file with
  | some f =>
    some ((sortedKeys class_to_idx).flatMap fun target =>
      (classFiles d entries target).filterMap fun p =>
        if f p then some (p, lookupIdx class_to_idx target) else none)
  | none =>
    if (sortedKeys class_to_idx).all
        (fun target => (classFiles d entries target).isEmpty)
    then some [] else none

/-- `DatasetFolder._find_classes(dir)`: the names of the directory entries
of `dir` (`os.scandir` order, i.e. the forest order), sorted, and the dict
`{classes[i]: i}`. -/
def find_classes (entries : FSForest) : List PyStr × List (PyStr × Nat) :=
  let classes := pySorted (dirNames entries)
  (classes, classes.enum.map fun p => (p.2, p.1))

/-- `IMG_EXTENSIONS`. -/
def IMG_EXTENSIONS : List PyStr :=
  [".jpg".data, ".jpeg".data, ".png".data, ".ppm".data, ".bmp".data,
   ".pgm".data, ".tif".data, ".tiff".data, ".webp".data]

/-- Python exceptions surfaced by construction: the `RuntimeError` raised
on an empty scan (with its message) and the `TypeError` of calling `None`. -/
inductive PyErr where
  | typeError
  | runtimeError (msg : PyStr)
deriving DecidableEq

/-- The message of the empty-scan `RuntimeError`:
`"Found 0 files in subfolders of: " + root + "\nSupported extensions are: "
+ ",".join(extensions)`. -/
def zeroFilesMsg (root : PyStr) (extensions : List PyStr) : PyStr :=
  "Found 0 files in subfolders of: ".data ++ root ++ "\n".data ++
    "Supported extensions are: ".data ++ List.intercalate ",".data extensions

/-- `extensions = IMG_EXTENSIONS if extensions is None else extensions`
(the defaulting step at the top of both `__init__`s). -/
def effectiveExtensions (extensions : Option (List PyStr)) : List PyStr :=
  match extensions with
  | none => IMG_EXTENSIONS
  | some e => e

/-- The data attributes a `DatasetFolder` holds after `__init__` (the
loader and transform callables are passed to `__getitem__` directly in
this model). -/
structure DatasetFolderState where
  root : PyStr
  classes : List PyStr
  class_to_idx : List (PyStr × Nat)
  samples : List (PyStr × Nat)
  targets : List Nat
deriving DecidableEq

/-- `DatasetFolder.__init__(root, loader, extensions, transform,
is_valid_file)` on the snapshot `entries` of `root`. -/
def DatasetFolder.init (root : PyStr) (entries : FSForest)
    (extensions : Option (List PyStr)) (is_valid_file : Option (PyStr → Bool)) :
    Except PyErr DatasetFolderState :=
  let exts := effectiveExtensions extensions
  let fc := find_classes entries
  match make_dataset root entries fc.2 (some exts) is_valid_file with
  | none => .error .typeError
  | some samples =>
    if samples.length = 0 then
      .error (.runtimeError (zeroFilesMsg root exts))
    else
      .ok { root := root, classes := fc.1, class_to_idx := fc.2,
            samples := samples, targets := samples.map (·.2) }

/-- The data attributes an `ImageFolder` holds after `__init__`. -/
structure ImageFolderState where
  root : PyStr
  samples : List PyStr
deriving DecidableEq

/-- `ImageFolder.__init__(root, loader, extensions, transform,
is_valid_file)` on the snapshot `entries` of `root`. The predicate is
resolved after the defaulting of `extensions`, so the `extensions is not
None` test is always true and the `TypeError` branch is unreachable. -/
def ImageFolder.init (root : PyStr) (entries : FSForest)
    (extensions : Option (List PyStr)) (is_valid_file : Option (PyStr → Bool)) :
    Except PyErr ImageFolderState :=
  let exts := effectiveExtensions extensions
  let path := expanduser root
  match resolveValid (some exts) is_valid_file with
  | none => .error .typeError
  | some f =>
    let samples := (sortedWalkFiles path entries).filter f
    if samples.length = 0 then
      .error (.runtimeError (zeroFilesMsg root exts))
    else
      .ok { root := root, samples := samples }

/-- Python list indexing `l[i]`: a negative index counts from the end;
`none` is the `IndexError`. -/
def pyIndex (l : List α) (i : Int) : Option α :=
  let j : Int := if i < 0 then i + l.length else i
  if 0 ≤ j then l[j.toNat]? else none

/-- The error outcomes of `__getitem__`: the `IndexError` of an
out-of-range index, and a loader failure (IO/decode error), which the
module does not catch. -/
inductive GetErr where
  | indexError
  | loadError
deriving DecidableEq

/-- `sample = self.transform(sample) if self.transform is not None`. -/
def applyTransform (transform : Option (α → α)) (s : α) : α :=
  match transform with
  | some t => t s
  | none => s

/-- `DatasetFolder.__getitem__(index)`: index `samples`, load the path,
optionally transform, return the `(sample, target)` pair. -/
def DatasetFolder.getitem (samples : List (PyStr × Nat))
    (loader : PyStr → Except Unit α) (transform : Option (α → α))
    (index : Int) : Except GetErr (α × Nat) :=
  match pyIndex samples index with
  | none => .error .indexError
  | some (path, target) =>
    match loader path with
    | .error _ => .error .loadError
    | .ok sample => .ok (applyTransform transform sample, target)

/-- `ImageFolder.__getitem__(index)`: index `samples`, load, optionally
transform, return the one-element list `[sample]`. -/
def ImageFolder.getitem (samples : List PyStr)
    (loader : PyStr → Except Unit α) (transform : Option (α → α))
    (index : Int) : Except GetErr (List α) :=
  match pyIndex samples index with
  | none => .error .indexError
  | some path =>
    match loader path with
    | .error _ => .error .loadError
    | .ok sample => .ok [applyTransform transform sample]

/-- The sample list `DatasetFolder.__init__` builds: the `some`-branch value
of `make_dataset` once `extensions` has been defaulted to a non-`None`
value, at which point the `is_valid_file` argument plays no role.
`DatasetFolder.init` computes exactly this list (definitionally; see
`datasetFolder_init_eq`). -/
def dfCollect (root : PyStr) (entries : FSForest) (exts : List PyStr) :
    List (PyStr × Nat) :=
  (sortedKeys (find_classes entries).2).flatMap fun target =>
    (classFiles (expanduser root) entries target).filterMap fun p =>
      if has_valid_extension p exts then
        some (p, lookupIdx (find_classes entries).2 target)
      else none

/-- The sample list `ImageFolder.__init__` builds, in the same sense. -/
def ifCollect (root : PyStr) (entries : FSForest) (exts : List PyStr) :
    List PyStr :=
  (sortedWalkFiles (expanduser root) entries).filter fun x =>
    has_valid_extension x exts

/-- A demonstration snapshot of a dataset root `r`: a class directory
`class_b` holding `10.jpg` and `1.jpg` and a class directory `class_a`
holding `b.png` and `a.txt`, with `class_b` listed before `class_a` and
the files listed out of order (listing order is OS-arbitrary). -/
def demoFS : FSForest := .ofList
  [.dir "class_b".data (.ofList [.file "10.jpg".data, .file "1.jpg".data]),
   .dir "class_a".data (.ofList [.file "b.png".data, .file "a.txt".data])]

/-- `demoFS` with the two class directories listed in the other order. -/
def demoFSSwapped : FSForest := .ofList
  [.dir "class_a".data (.ofList [.file "b.png".data, .file "a.txt".data]),
   .dir "class_b".data (.ofList [.file "10.jpg".data, .file "1.jpg".data])]

/-- The state `DatasetFolder.__init__` computes on `demoFS` (checked by
`rfl` in the theorems below): classes in sorted order independent of the
listing order, `a.txt` filtered out, `1.jpg` before `10.jpg` in string
order, labels grouped. -/
def demoState : DatasetFolderState :=
  { root := "r".data,
    classes := ["class_a".data, "class_b".data],
    class_to_idx := [("class_a".data, 0), ("class_b".data, 1)],
    samples := [("r/class_a/b.png".data, 0), ("r/class_b/1.jpg".data, 1),
                ("r/class_b/10.jpg".data, 1)],
    targets := [0, 1, 1] }

deriving instance DecidableEq for Except
theorem char_eq_of_toNat_eq {a b : Char} (h : a.toNat = b.toNat) : a = b :=
  Char.ext (UInt32.ext h)

theorem strLe_refl (a : PyStr) : strLe a a = true := by
  induction a with
  | nil => rfl
  | cons c cs ih => simp [strLe, ih]

theorem strLe_total (a b : PyStr) : strLe a b = true ∨ strLe b a = true := by
  induction a generalizing b with
  | nil => left; rfl
  | cons c cs ih =>
    cases b with
    | nil => right; rfl
    | cons d ds =>
      by_cases h1 : c.toNat < d.toNat
      · left; simp [strLe, h1]
      · by_cases h2 : d.toNat < c.toNat
        · right; simp [strLe, h2]
        · rcases ih ds with h | h
          · left; simp [strLe, h1, h2, h]
          · right; simp [strLe, h1, h2, h]

theorem strLe_trans (a b c : PyStr) (hab : strLe a b = true)
    (hbc : strLe b c = true) : strLe a c = true := by
  induction a generalizing b c with
  | nil => rfl
  | cons x xs ih =>
    cases b with
    | nil => simp [strLe] at hab
    | cons y ys =>
      cases c with
      | nil => simp [strLe] at hbc
      | cons z zs =>
        simp only [strLe] at hab hbc ⊢
        split_ifs at hab hbc ⊢ with h1 h2 h3 h4 h5 h6 <;>
          first
          | rfl
          | omega
          | (exact ih ys zs hab hbc)

theorem strLe_antisymm (a b : PyStr) (hab : strLe a b = true)
    (hba : strLe b a = true) : a = b := by
  induction a generalizing b with
  | nil =>
    cases b with
    | nil => rfl
    | cons y ys => simp [strLe] at hba
  | cons x xs ih =>
    cases b with
    | nil => simp [strLe] at hab
    | cons y ys =>
      simp only [strLe] at hab hba
      split_ifs at hab hba with h1 h2 h3 h4 <;> try omega
      have hxy : x = y := char_eq_of_toNat_eq (by omega)
      have := ih ys hab hba
      simp [hxy, this]

instance : IsTotal PyStr strle := ⟨strLe_total⟩

instance : IsTrans PyStr strle := ⟨strLe_trans⟩

instance : IsAntisymm PyStr strle := ⟨strLe_antisymm⟩

instance : IsRefl PyStr strle := ⟨strLe_refl⟩

instance : IsTotal WalkTriple byRoot := ⟨fun a b => strLe_total a.1 b.1⟩

instance : IsTrans WalkTriple byRoot := ⟨fun a b c => strLe_trans a.1 b.1 c.1⟩

/-- `make_dataset` with a non-`None` extension set computes `dfCollect`,
whatever `is_valid_file` is (the local redefinition shadows it). -/
theorem make_dataset_some (root : PyStr) (entries : FSForest)
    (exts : List PyStr) (iv : Option (PyStr → Bool)) :
    make_dataset root entries (find_classes entries).2 (some exts) iv =
      some (dfCollect root entries exts) := rfl

/-- `DatasetFolder.__init__`, unfolded to the empty-scan test over
`dfCollect`. -/
theorem datasetFolder_init_eq (root : PyStr) (entries : FSForest)
    (extensions : Option (List PyStr)) (iv : Option (PyStr → Bool)) :
    DatasetFolder.init root entries extensions iv =
      if (dfCollect root entries (effectiveExtensions extensions)).length = 0 then
        .error (.runtimeError (zeroFilesMsg root (effectiveExtensions extensions)))
      else
        .ok { root := root, classes := (find_classes entries).1,
              class_to_idx := (find_classes entries).2,
              samples := dfCollect root entries (effectiveExtensions extensions),
              targets := (dfCollect root entries
                (effectiveExtensions extensions)).map (·.2) } := rfl

/-- `ImageFolder.__init__`, unfolded to the empty-scan test over
`ifCollect`. -/
theorem imageFolder_init_eq (root : PyStr) (entries : FSForest)
    (extensions : Option (List PyStr)) (iv : Option (PyStr → Bool)) :
    ImageFolder.init root entries extensions iv =
      if (ifCollect root entries (effectiveExtensions extensions)).length = 0 then
        .error (.runtimeError (zeroFilesMsg root (effectiveExtensions extensions)))
      else
        .ok { root := root,
              samples := ifCollect root entries (effectiveExtensions extensions) } :=
  rfl

/-- Claim C1: if both an extension set and a custom `is_valid_file`
predicate are supplied, the extension-based predicate is used for
filtering and the custom predicate is ignored — construction yields
exactly the result of the extension filter alone, for `DatasetFolder` and
`ImageFolder` alike. -/
theorem c1_extension_set_shadows_custom_predicate (root : PyStr)
    (entries : FSForest) (exts : List PyStr) (f : PyStr → Bool) :
    DatasetFolder.init root entries (some exts) (some f) =
      DatasetFolder.init root entries (some exts) none ∧
    ImageFolder.init root entries (some exts) (some f) =
      ImageFolder.init root entries (some exts) none :=
  ⟨rfl, rfl⟩

/-- Claim C2: the result of construction is independent of the
`is_valid_file` argument for every input — a `None` extension set is
replaced by the built-in default before filtering, so the custom predicate
is never invoked, and two constructions differing only in `is_valid_file`
have identical samples, targets, classes and class-to-index tables. -/
theorem c2_construction_independent_of_is_valid_file (root : PyStr)
    (entries : FSForest) (extensions : Option (List PyStr))
    (f g : Option (PyStr → Bool)) :
    DatasetFolder.init root entries extensions f =
      DatasetFolder.init root entries extensions g ∧
    ImageFolder.init root entries extensions f =
      ImageFolder.init root entries extensions g :=
  ⟨rfl, rfl⟩

/-- Claim C6: the extension filter returns true iff the lowercased
filename ends with one of the extensions — case-insensitive on the
filename (`a.JPG` matches `.jpg`) and with no normalization of the
extension set (`a.jpg` does not match `.JPG`); it is a total boolean
function by construction. -/
theorem c6_has_valid_extension_suffix_of_lowercase (filename : PyStr)
    (extensions : List PyStr) :
    (has_valid_extension filename extensions = true ↔
      ∃ ext ∈ extensions, List.IsSuffix ext (pyLower filename)) ∧
    has_valid_extension "a.JPG".data [".jpg".data] = true ∧
    has_valid_extension "a.jpg".data [".JPG".data] = false := by
  refine ⟨?_, by decide, by decide⟩
  simp only [has_valid_extension, List.any_eq_true, List.isSuffixOf_iff_suffix]

/-- Python list indexing fails exactly outside `[-len(l), len(l))`. -/
theorem pyIndex_eq_none_iff (l : List α) (i : Int) :
    pyIndex l i = none ↔ i < -(l.length : Int) ∨ (l.length : Int) ≤ i := by
  unfold pyIndex
  split_ifs with h1 h2 h3 <;> simp [List.getElem?_eq_none_iff] <;> omega

/-- `DatasetFolder.__getitem__` raises `IndexError` exactly when the list
indexing does: a loader failure surfaces as a different error. -/
theorem datasetFolder_getitem_indexError_iff (samples : List (PyStr × Nat))
    (loader : PyStr → Except Unit α) (transform : Option (α → α)) (i : Int) :
    DatasetFolder.getitem samples loader transform i = .error .indexError ↔
      pyIndex samples i = none := by
  unfold DatasetFolder.getitem
  cases hp : pyIndex samples i with
  | none => simp
  | some pt =>
    obtain ⟨path, target⟩ := pt
    cases hl : loader path <;> simp [hl]

/-- `ImageFolder.__getitem__` raises `IndexError` exactly when the list
indexing does. -/
theorem imageFolder_getitem_indexError_iff (samples : List PyStr)
    (loader : PyStr → Except Unit α) (transform : Option (α → α)) (i : Int) :
    ImageFolder.getitem samples loader transform i = .error .indexError ↔
      pyIndex samples i = none := by
  unfold ImageFolder.getitem
  cases hp : pyIndex samples i with
  | none => simp
  | some path => cases hl : loader path <;> simp [hl]

/-- Claim C3, amended: `__getitem__` fails with `IndexError` if and only
if the integer index is outside Python's indexable range
`[-length, length)` — a negative index in `[-length, 0)` counts from the
end and succeeds, so the range `[0, length)` of the original claim is too
small; for every index inside the range with a succeeding loader, the call
returns without that error. -/
theorem c3_getitem_indexerror_iff_python_range
    (dfSamples : List (PyStr × Nat)) (ifSamples : List PyStr)
    (loader : PyStr → Except Unit α) (transform : Option (α → α)) (i : Int) :
    (DatasetFolder.getitem dfSamples loader transform i = .error .indexError ↔
      i < -(dfSamples.length : Int) ∨ (dfSamples.length : Int) ≤ i) ∧
    (ImageFolder.getitem ifSamples loader transform i = .error .indexError ↔
      i < -(ifSamples.length : Int) ∨ (ifSamples.length : Int) ≤ i) := by
  constructor
  · rw [datasetFolder_getitem_indexError_iff, pyIndex_eq_none_iff]
  · rw [imageFolder_getitem_indexError_iff, pyIndex_eq_none_iff]

/-- Claim C3 as stated is false on the code: on the constructed
demonstration dataset, index `-1` lies outside `[0, length)`, yet
`__getitem__` does not raise `IndexError` — Python list indexing admits
negative indices, and it returns the last sample. -/
theorem c3_counterexample_negative_index_succeeds :
    DatasetFolder.init "r".data demoFS none none = .ok demoState ∧
    ¬ (0 ≤ (-1 : Int) ∧ (-1 : Int) < (demoState.samples.length : Int)) ∧
    DatasetFolder.getitem demoState.samples Except.ok none (-1) =
      .ok ("r/class_b/10.jpg".data, 1) ∧
    DatasetFolder.getitem demoState.samples Except.ok none (-1) ≠
      .error .indexError :=
  ⟨rfl, by decide, rfl, by decide⟩

/-- Claim C4: construction fails with the "Found 0 files" RuntimeError —
whose message names the root and the comma-joined effective extension
set — exactly when the scan yields zero matching files; when at least one
file matches, construction succeeds and this error is not raised. -/
theorem c4_zero_files_configuration_error (root : PyStr) (entries : FSForest)
    (extensions : Option (List PyStr)) (iv : Option (PyStr → Bool)) :
    (DatasetFolder.init root entries extensions iv =
        .error (.runtimeError (zeroFilesMsg root (effectiveExtensions extensions))) ↔
      make_dataset root entries (find_classes entries).2
        (some (effectiveExtensions extensions)) iv = some []) ∧
    (ImageFolder.init root entries extensions iv =
        .error (.runtimeError (zeroFilesMsg root (effectiveExtensions extensions))) ↔
      ifCollect root entries (effectiveExtensions extensions) = []) ∧
    (make_dataset root entries (find_classes entries).2
        (some (effectiveExtensions extensions)) iv = some [] ∨
      ∃ st, DatasetFolder.init root entries extensions iv = .ok st) ∧
    (ifCollect root entries (effectiveExtensions extensions) = [] ∨
      ∃ st, ImageFolder.init root entries extensions iv = .ok st) ∧
    zeroFilesMsg root (effectiveExtensions extensions) =
      "Found 0 files in subfolders of: ".data ++ root ++ "\n".data ++
        "Supported extensions are: ".data ++
        List.intercalate ",".data (effectiveExtensions extensions) := by
  refine ⟨?_, ?_, ?_, ?_, rfl⟩
  · rw [datasetFolder_init_eq, make_dataset_some]
    by_cases h : (dfCollect root entries (effectiveExtensions extensions)).length = 0
    · rw [if_pos h]
      simp [List.length_eq_zero.mp h]
    · rw [if_neg h]
      simp only [Option.some.injEq]
      constructor
      · intro hcontra
        exact absurd hcontra (by simp)
      · intro he
        exact absurd (by simp [he]) h
  · rw [imageFolder_init_eq]
    by_cases h : (ifCollect root entries (effectiveExtensions extensions)).length = 0
    · rw [if_pos h]
      simp [List.length_eq_zero.mp h]
    · rw [if_neg h]
      constructor
      · intro hcontra
        exact absurd hcontra (by simp)
      · intro he
        exact absurd (by simp [he]) h
  · by_cases h : (dfCollect root entries (effectiveExtensions extensions)).length = 0
    · left
      rw [make_dataset_some, List.length_eq_zero.mp h]
    · right
      exact ⟨_, by rw [datasetFolder_init_eq, if_neg h]⟩
  · by_cases h : (ifCollect root entries (effectiveExtensions extensions)).length = 0
    · left
      exact List.length_eq_zero.mp h
    · right
      exact ⟨_, by rw [imageFolder_init_eq, if_neg h]⟩

/-- The directory names of a re-listed directory are a permutation. -/
theorem dirNames_perm (entries other : FSForest)
    (h : entries.toList.Perm other.toList) :
    (dirNames entries).Perm (dirNames other) :=
  h.filterMap _

/-- Claim C5: class discovery returns exactly the immediate subdirectory
names (non-directories excluded), sorted lexicographically, with the
class-to-index table mapping each class to its position in sorted order
starting at 0; the result is independent of the listing order of the
directory. -/
theorem c5_find_classes_sorted_dense (entries other : FSForest)
    (hperm : entries.toList.Perm other.toList) :
    (find_classes entries).1.Perm (dirNames entries) ∧
    List.Sorted strle (find_classes entries).1 ∧
    (find_classes entries).2.map (·.1) = (find_classes entries).1 ∧
    (find_classes entries).2.map (·.2) =
      List.range (find_classes entries).1.length ∧
    find_classes entries = find_classes other := by
  have hclasses : pySorted (dirNames entries) = pySorted (dirNames other) := by
    apply List.eq_of_perm_of_sorted ?_ (List.sorted_insertionSort strle _)
      (List.sorted_insertionSort strle _)
    exact (List.perm_insertionSort strle _).trans
      ((dirNames_perm entries other hperm).trans
        (List.perm_insertionSort strle _).symm)
  refine ⟨List.perm_insertionSort strle _,
    List.sorted_insertionSort strle _, ?_, ?_, ?_⟩
  · show ((pySorted (dirNames entries)).enum.map fun p => (p.2, p.1)).map (·.1) =
      pySorted (dirNames entries)
    rw [List.map_map]
    exact List.enum_map_snd _
  · show ((pySorted (dirNames entries)).enum.map fun p => (p.2, p.1)).map (·.2) =
      List.range (pySorted (dirNames entries)).length
    rw [List.map_map]
    exact List.enum_map_fst _
  · simp only [find_classes, hclasses]

/-- Witness for C5: the demonstration snapshot, whose directories are
listed out of order, against the same snapshot listed the other way. -/
theorem c5_witness_demo :
    (find_classes demoFS).1.Perm (dirNames demoFS) ∧
    List.Sorted strle (find_classes demoFS).1 ∧
    (find_classes demoFS).2.map (·.1) = (find_classes demoFS).1 ∧
    (find_classes demoFS).2.map (·.2) =
      List.range (find_classes demoFS).1.length ∧
    find_classes demoFS = find_classes demoFSSwapped :=
  c5_find_classes_sorted_dense demoFS demoFSSwapped (List.Perm.swap _ _ _)

/-- Claim C7: for a valid index and a succeeding loader,
`ImageFolder.__getitem__` returns a one-element sequence holding the
(possibly transformed) sample — not a bare value and not a pair — while
`DatasetFolder.__getitem__` returns the two-element `(sample, label)`
pair. -/
theorem c7_getitem_result_shapes
    (dfSamples : List (PyStr × Nat)) (ifSamples : List PyStr)
    (loader : PyStr → Except Unit α) (transform : Option (α → α)) (i : Int)
    (p q : PyStr) (t : Nat) (s u : α)
    (hif : pyIndex ifSamples i = some p) (hs : loader p = .ok s)
    (hdf : pyIndex dfSamples i = some (q, t)) (hu : loader q = .ok u) :
    ImageFolder.getitem ifSamples loader transform i =
      .ok [applyTransform transform s] ∧
    DatasetFolder.getitem dfSamples loader transform i =
      .ok (applyTransform transform u, t) := by
  constructor
  · simp [ImageFolder.getitem, hif, hs]
  · simp [DatasetFolder.getitem, hdf, hu]

/-- Witness for C7 on one-file datasets with the identity loader. -/
theorem c7_witness_singleton :
    ImageFolder.getitem ["a.jpg".data] Except.ok none 0 = .ok ["a.jpg".data] ∧
    DatasetFolder.getitem [("a.jpg".data, 0)] Except.ok none 0 =
      .ok ("a.jpg".data, 0) :=
  c7_getitem_result_shapes [("a.jpg".data, 0)] ["a.jpg".data] Except.ok none 0
    "a.jpg".data "a.jpg".data 0 "a.jpg".data "a.jpg".data rfl rfl rfl rfl

/-- Claim C8: in every successfully constructed `DatasetFolder`, the
`targets` sequence is parallel to `samples`: same length, and entry `i` of
`targets` is the label component of entry `i` of `samples`. -/
theorem c8_targets_parallel_to_samples (root : PyStr) (entries : FSForest)
    (extensions : Option (List PyStr)) (iv : Option (PyStr → Bool))
    (st : DatasetFolderState)
    (h : DatasetFolder.init root entries extensions iv = .ok st) :
    st.targets.length = st.samples.length ∧
    ∀ i : Nat, st.targets[i]? = st.samples[i]?.map (·.2) := by
  rw [datasetFolder_init_eq] at h
  by_cases hz : (dfCollect root entries (effectiveExtensions extensions)).length = 0
  · rw [if_pos hz] at h
    exact absurd h (by simp)
  · rw [if_neg hz] at h
    injection h with h2
    subst h2
    constructor
    · simp
    · intro i
      simp [List.getElem?_map]

/-- Witness for C8 at the demonstration dataset. -/
theorem c8_witness_demo :
    demoState.targets.length = demoState.samples.length ∧
    ∀ i : Nat, demoState.targets[i]? = demoState.samples[i]?.map (·.2) :=
  c8_targets_parallel_to_samples "r".data demoFS none none demoState rfl

/-- Appending a common prefix on the left preserves the string order. -/
theorem strLe_append_left (c a b : PyStr) :
    strLe (c ++ a) (c ++ b) = strLe a b := by
  induction c with
  | nil => rfl
  | cons x xs ih => simp [strLe, ih]

/-- Joining a common directory path preserves the string order. -/
theorem strle_pathJoin (r u v : PyStr) (huv : strle u v) :
    strle (pathJoin r u) (pathJoin r v) := by
  show strLe (r ++ '/' :: u) (r ++ '/' :: v) = true
  rw [show r ++ '/' :: u = (r ++ ['/']) ++ u by simp,
    show r ++ '/' :: v = (r ++ ['/']) ++ v by simp,
    strLe_append_left]
  exact huv

/-- Each per-directory block of `sortedWalkFiles` lists its files in
sorted order. -/
theorem sorted_map_pathJoin (r : PyStr) (fnames : List PyStr) :
    List.Sorted strle ((pySorted fnames).map (pathJoin r)) := by
  rw [List.Sorted, List.pairwise_map]
  exact (List.sorted_insertionSort strle fnames).imp fun h =>
    strle_pathJoin r _ _ h

/-- Claim C9: the collected order is lexicographic string order — on the
demonstration snapshot `1.jpg` precedes `10.jpg` (string order, not
numeric) — and in general `sorted(os.walk(...))` visits directories in
sorted order of their root paths, each directory's filenames being
considered in sorted order. -/
theorem c9_walk_and_filename_order (top : PyStr) (entries : FSForest)
    (t : WalkTriple) (ht : t ∈ sortedWalk top entries) :
    DatasetFolder.init "r".data demoFS none none = .ok demoState ∧
    demoState.samples =
      [("r/class_a/b.png".data, 0), ("r/class_b/1.jpg".data, 1),
       ("r/class_b/10.jpg".data, 1)] ∧
    strle "1.jpg".data "10.jpg".data ∧
    List.Sorted strle ((sortedWalk top entries).map (·.1)) ∧
    List.Sorted strle ((pySorted t.2.2).map (pathJoin t.1)) := by
  refine ⟨rfl, rfl, by decide, ?_, sorted_map_pathJoin t.1 t.2.2⟩
  rw [List.Sorted, List.pairwise_map]
  exact List.sorted_insertionSort byRoot (osWalk top entries)

/-- Witness for C9 at the demonstration snapshot, instantiated at the
`class_b` walk triple. -/
theorem c9_witness_demo :
    DatasetFolder.init "r".data demoFS none none = .ok demoState ∧
    demoState.samples =
      [("r/class_a/b.png".data, 0), ("r/class_b/1.jpg".data, 1),
       ("r/class_b/10.jpg".data, 1)] ∧
    strle "1.jpg".data "10.jpg".data ∧
    List.Sorted strle ((sortedWalk "r".data demoFS).map (·.1)) ∧
    List.Sorted strle ((pySorted ["10.jpg".data, "1.jpg".data]).map
      (pathJoin "r/class_b".data)) :=
  c9_walk_and_filename_order "r".data demoFS
    ("r/class_b".data, [], ["10.jpg".data, "1.jpg".data]) (by decide)

/-- `List.lookup` on the enumerated association table of a duplicate-free
list finds each element's position. -/
theorem lookup_enumFrom_map (l : List PyStr) :
    ∀ (k i : Nat), l.Nodup → ∀ hi : i < l.length,
      List.lookup l[i] ((List.enumFrom k l).map fun p => (p.2, p.1)) =
        some (k + i) := by
  induction l with
  | nil =>
    intro k i _ hi
    simp at hi
  | cons a as ih =>
    intro k i hnd hi
    cases i with
    | zero =>
      simp [List.enumFrom, List.lookup]
    | succ n =>
      have hn : n < as.length := by simpa using hi
      have hne : (as[n] == a) = false := by
        rw [beq_eq_false_iff_ne]
        intro he
        exact (List.nodup_cons.mp hnd).1 (he ▸ List.getElem_mem hn)
      have step : List.lookup (a :: as)[n + 1]
          ((List.enumFrom k (a :: as)).map fun p => (p.2, p.1)) =
          List.lookup as[n] ((List.enumFrom (k + 1) as).map fun p => (p.2, p.1)) := by
        simp only [List.getElem_cons_succ, List.enumFrom, List.map, List.lookup, hne]
      rw [step, ih (k + 1) n (List.nodup_cons.mp hnd).2 hn]
      simp [Nat.add_comm, Nat.add_assoc, Nat.add_left_comm]

/-- Along a duplicate-free list, looking positions up in its enumerated
association table is monotone. -/
theorem lookupIdx_pairwise_le (classes : List PyStr) (hnd : classes.Nodup) :
    List.Pairwise (fun a b =>
      lookupIdx (classes.enum.map fun p => (p.2, p.1)) a ≤
        lookupIdx (classes.enum.map fun p => (p.2, p.1)) b) classes := by
  rw [List.pairwise_iff_getElem]
  intro i j hi hj hij
  unfold lookupIdx
  rw [show classes.enum = List.enumFrom 0 classes from rfl,
    lookup_enumFrom_map classes 0 i hnd hi,
    lookup_enumFrom_map classes 0 j hnd hj]
  simpa using Nat.le_of_lt hij

/-- Every label in one class's collected block is that class's index. -/
theorem eq_of_mem_labelBlock {c : PyStr → Bool} {k : Nat} {l : List PyStr}
    {x : Nat}
    (hx : x ∈ (l.filterMap fun p =>
      if c p then some (p, k) else none).map (·.2)) :
    x = k := by
  rcases List.mem_map.mp hx with ⟨b, hb, hbx⟩
  rcases List.mem_filterMap.mp hb with ⟨p, hp, hf⟩
  by_cases hc : c p
  · rw [if_pos hc] at hf
    injection hf with hf2
    rw [← hbx, ← hf2]
  · rw [if_neg hc] at hf
    exact Option.noConfusion hf

/-- The label sequence of `dfCollect` is non-decreasing: classes are
walked in sorted order and labelled by sorted position. -/
theorem dfCollect_labels_sorted (root : PyStr) (entries : FSForest)
    (exts : List PyStr) (hnd : (dirNames entries).Nodup) :
    List.Sorted (· ≤ ·) ((dfCollect root entries exts).map (·.2)) := by
  have hclsnd : (pySorted (dirNames entries)).Nodup :=
    (List.perm_insertionSort strle (dirNames entries)).symm.nodup hnd
  have hmapfst : ((find_classes entries).2).map (·.1) =
      pySorted (dirNames entries) := by
    show ((pySorted (dirNames entries)).enum.map fun p => (p.2, p.1)).map (·.1) =
      pySorted (dirNames entries)
    rw [List.map_map]
    exact List.enum_map_snd _
  have hkeys : sortedKeys (find_classes entries).2 = pySorted (dirNames entries) := by
    unfold sortedKeys pySorted
    rw [hmapfst]
    exact List.Sorted.insertionSort_eq (List.sorted_insertionSort strle _)
  unfold dfCollect
  rw [List.map_flatMap, hkeys]
  rw [List.Sorted]
  apply List.pairwise_flatMap.mpr
  constructor
  · intro target _
    apply List.pairwise_of_forall_mem_list
    intro x hx y hy
    rw [eq_of_mem_labelBlock hx, eq_of_mem_labelBlock hy]
  · apply (lookupIdx_pairwise_le (pySorted (dirNames entries)) hclsnd).imp
    intro a b hab x hx y hy
    rw [eq_of_mem_labelBlock hx, eq_of_mem_labelBlock hy]
    exact hab

/-- Claim C10: in every successfully constructed `DatasetFolder`, the
labels of the sample sequence (and hence the `targets` sequence) are
non-decreasing — samples are grouped by class in ascending label order.
The snapshot hypothesis records that a directory's entries have pairwise
distinct names, as every real directory listing does. -/
theorem c10_labels_nondecreasing (root : PyStr) (entries : FSForest)
    (extensions : Option (List PyStr)) (iv : Option (PyStr → Bool))
    (st : DatasetFolderState) (hnd : (dirNames entries).Nodup)
    (h : DatasetFolder.init root entries extensions iv = .ok st) :
    List.Sorted (· ≤ ·) st.targets ∧
    List.Sorted (· ≤ ·) (st.samples.map (·.2)) := by
  rw [datasetFolder_init_eq] at h
  by_cases hz : (dfCollect root entries (effectiveExtensions extensions)).length = 0
  · rw [if_pos hz] at h
    exact absurd h (by simp)
  · rw [if_neg hz] at h
    injection h with h2
    subst h2
    exact ⟨dfCollect_labels_sorted root entries (effectiveExtensions extensions) hnd,
      dfCollect_labels_sorted root entries (effectiveExtensions extensions) hnd⟩

/-- Witness for C10 at the demonstration dataset, whose targets are
`[0, 1, 1]`. -/
theorem c10_witness_demo :
    List.Sorted (· ≤ ·) demoState.targets ∧
    List.Sorted (· ≤ ·) (demoState.samples.map (·.2)) :=
  c10_labels_nondecreasing "r".data demoFS none none demoState (by decide) rfl
